import Mathlib

/-!
Verification of the osgEarth HTTP-backed fetching pipeline against its
specification.  The definitions below are a shallow embedding of the code in
`src/osgEarth/HTTPClient.cpp` and `src/osgEarth/Config`.  Strings are modelled
as `List Char`; C++ `std::map`/header containers whose declarations live in
headers that are not part of the source snapshot are modelled from the spec and
marked as such in their doc comments.
-/

set_option autoImplicit false

namespace OsgEarth

/-- Strings of the embedded program. -/
abbrev Str := List Char

/-- Whitespace characters recognized by the trimming utility.
Modelled from the spec: `osgEarth::trim` (StringUtils, not under src/) strips
standard whitespace from both ends of a string. -/
def isSpaceChar (c : Char) : Bool :=
  c = ' ' || c = '\t' || c = '\n' || c = '\r'

/-- Modelled from the spec: `osgEarth::Strings::trim` (StringUtils, not under
src/) removes leading and trailing whitespace. -/
def trim (s : Str) : Str :=
  ((s.dropWhile isSpaceChar).reverse.dropWhile isSpaceChar).reverse

/-- Embeds the `HTTPRequest` constructor line
`osgEarth::replaceIn(_url, " ", "%20")` (HTTPClient.cpp line 249): every
space of the URL is replaced by the three characters `%20`. -/
def encodeSpaces (s : Str) : Str :=
  s.flatMap (fun c => if c = ' ' then ['%', '2', '0'] else [c])

/-- Insert-or-assign on an association list, keeping the position of an
existing key and appending new keys at the end.
Modelled from the spec: the `HTTPRequest::Parameters` container is declared in
the HTTPClient header, which is not under src/; the spec describes it as an
"ordered mapping of query parameters" whose insertion order is preserved in
the rendered URL, so `operator[] =` keeps the first-insertion position and
appends unseen keys. -/
def upsert : List (Str × Str) → Str → Str → List (Str × Str)
  | [], k, v => [(k, v)]
  | (k', v') :: rest, k, v =>
      if k' = k then (k, v) :: rest else (k', v') :: upsert rest k v

/-- Embeds `HTTPRequest` (HTTPClient.cpp): URL plus ordered query parameters
and headers. -/
structure HTTPRequest where
  url : Str
  parameters : List (Str × Str)
  headers : List (Str × Str)
  deriving Repr, DecidableEq

/-- Embeds `HTTPRequest::HTTPRequest(const std::string&)` (lines 245-250):
stores the URL with spaces percent-encoded, with no parameters or headers. -/
def HTTPRequest.make (u : Str) : HTTPRequest :=
  ⟨encodeSpaces u, [], []⟩

/-- Embeds `HTTPRequest::addParameter` (lines 260-264): `_parameters[name] = value`. -/
def HTTPRequest.addParameter (r : HTTPRequest) (name value : Str) : HTTPRequest :=
  { r with parameters := upsert r.parameters name value }

/-- Embeds `HTTPRequest::addHeader` (lines 292-296): `_headers[name] = value`. -/
def HTTPRequest.addHeader (r : HTTPRequest) (name value : Str) : HTTPRequest :=
  { r with headers := upsert r.headers name value }

/-- One rendered query parameter, `k=v`. -/
def renderParam (p : Str × Str) : Str :=
  p.1 ++ '=' :: p.2

/-- The rendered query string appended to `url` by `getURL`: empty for no
parameters; otherwise the first separator is `?` unless the URL already
contains `?`, and every further parameter is preceded by `&`. -/
def renderQuery (url : Str) : List (Str × Str) → Str
  | [] => []
  | p :: rest =>
      (if url.contains '?' then '&' else '?') ::
        (renderParam p ++ rest.flatMap (fun q => '&' :: renderParam q))

/-- Embeds `HTTPRequest::getURL` (HTTPClient.cpp lines 326-346): returns the
URL unchanged when there are no parameters, else appends each parameter in
order, the first prefixed with `?` when the URL has no `?` yet, all others
with `&`. -/
def HTTPRequest.getURL (r : HTTPRequest) : Str :=
  match r.parameters with
  | [] => r.url
  | p :: rest =>
      r.url ++ ((if r.url.contains '?' then '&' else '?') ::
        (renderParam p ++ rest.flatMap (fun q => '&' :: renderParam q)))

theorem getURL_eq_renderQuery (r : HTTPRequest) :
    r.getURL = r.url ++ renderQuery r.url r.parameters := by
  cases h : r.parameters with
  | nil => simp [HTTPRequest.getURL, renderQuery, h]
  | cons p rest => simp [HTTPRequest.getURL, renderQuery, h]

theorem upsert_of_not_mem (m : List (Str × Str)) (k v : Str)
    (h : k ∉ m.map Prod.fst) : upsert m k v = m ++ [(k, v)] := by
  induction m with
  | nil => rfl
  | cons p rest ih =>
      simp only [List.map_cons, List.mem_cons] at h
      push_neg at h
      simp only [upsert, List.cons_append]
      rw [if_neg (fun hk => h.1 hk.symm), ih h.2]

/-- Folding `addParameter` over a list of pairs with fresh, pairwise distinct
keys appends the pairs, preserving prior parameters, the URL and headers. -/
theorem foldl_addParameter (kvs : List (Str × Str)) (r : HTTPRequest)
    (hnd : (kvs.map Prod.fst).Nodup)
    (hdisj : ∀ p ∈ kvs, p.1 ∉ r.parameters.map Prod.fst) :
    (kvs.foldl (fun a p => a.addParameter p.1 p.2) r) =
      { r with parameters := r.parameters ++ kvs } := by
  induction kvs generalizing r with
  | nil => simp
  | cons p rest ih =>
      simp only [List.foldl_cons]
      have hp : p.1 ∉ r.parameters.map Prod.fst := hdisj p (List.mem_cons_self p rest)
      have hstep : r.addParameter p.1 p.2 =
          { r with parameters := r.parameters ++ [(p.1, p.2)] } := by
        simp [HTTPRequest.addParameter, upsert_of_not_mem r.parameters p.1 p.2 hp]
      rw [hstep]
      simp only [List.map_cons, List.nodup_cons] at hnd
      have := ih { r with parameters := r.parameters ++ [(p.1, p.2)] } hnd.2 ?_
      · simpa using this
      · intro q hq
        simp only [List.map_append, List.mem_append]
        push_neg
        refine ⟨hdisj q (List.mem_cons_of_mem p hq), ?_⟩
        simp only [List.map_cons, List.map_nil, List.mem_singleton]
        intro hq1
        exact hnd.1 (hq1 ▸ List.mem_map_of_mem Prod.fst hq)

/-- C1, counterexample: for the base URL `"a b"` (which contains a space) and a
single parameter, the rendered URL starts with the percent-encoded form
`a%20b?k=v` and therefore does not begin with the base URL `"a b"` that the
request was constructed with. -/
theorem C1_counterexample :
    ¬ ("a b".toList <+:
        ((HTTPRequest.make "a b".toList).addParameter "k".toList "v".toList).getURL) := by
  decide

/-- C1 (amended): for every base URL `U` and parameter sequence with pairwise
distinct keys, `getURL` returns the percent-encoded URL (spaces replaced by
`%20`) followed by the parameters in insertion order, each as `k=v`, the first
separated by `?` when the encoded URL contains no `?` (and by `&` otherwise),
the rest by `&`; in particular the rendered URL begins with the encoded URL. -/
theorem C1_getURL_spec (u : Str) (kvs : List (Str × Str))
    (hnd : (kvs.map Prod.fst).Nodup) :
    (kvs.foldl (fun a p => a.addParameter p.1 p.2) (HTTPRequest.make u)).getURL =
        encodeSpaces u ++ renderQuery (encodeSpaces u) kvs ∧
      encodeSpaces u <+:
        (kvs.foldl (fun a p => a.addParameter p.1 p.2) (HTTPRequest.make u)).getURL := by
  have hfold := foldl_addParameter kvs (HTTPRequest.make u) hnd (by
    intro p _
    simp [HTTPRequest.make])
  have hurl : (kvs.foldl (fun a p => a.addParameter p.1 p.2)
      (HTTPRequest.make u)).getURL = encodeSpaces u ++ renderQuery (encodeSpaces u) kvs := by
    rw [hfold, getURL_eq_renderQuery]
    simp [HTTPRequest.make]
  exact ⟨hurl, hurl ▸ List.prefix_append _ _⟩

theorem C1_getURL_spec_witness :
    ((([("b".toList, "2".toList), ("a".toList, "1".toList)]).map Prod.fst).Nodup) ∧
      (([("b".toList, "2".toList), ("a".toList, "1".toList)]).foldl
          (fun a p => a.addParameter p.1 p.2) (HTTPRequest.make "http://ex".toList)).getURL =
        "http://ex?b=2&a=1".toList :=
  ⟨by decide, by
    rw [(C1_getURL_spec "http://ex".toList
      [("b".toList, "2".toList), ("a".toList, "1".toList)] (by decide)).1]
    decide⟩

/-! ## Config tree (src/osgEarth/Config) -/

/-- Modelled from the spec: `ci_equals` (StringUtils, not under src/) compares
two strings case-insensitively; `Config::keys_equal` forwards to it. -/
def ciEquals (a b : Str) : Bool :=
  a.map Char.toLower == b.map Char.toLower

/-- Embeds the `Config` tree (src/osgEarth/Config lines 35-507): a key, a
string value (`_defaultValue`), an ordered list of children and the
`_isNumber` hint.  The referrer / external-reference / location fields, which
no verified claim touches, are omitted. -/
inductive Config where
  | node (key : Str) (defaultValue : Str) (children : List Config) (isNumber : Bool)

def Config.key : Config → Str
  | .node k _ _ _ => k

def Config.value : Config → Str
  | .node _ v _ _ => v

def Config.defaultValue : Config → Str
  | .node _ v _ _ => v

def Config.children : Config → List Config
  | .node _ _ cs _ => cs

def Config.isNumber : Config → Bool
  | .node _ _ _ n => n

/-- The empty sentinel `Config` returned by `Config::child` on no match. -/
def Config.emptyConf : Config :=
  .node [] [] [] false

/-- First element of a child list whose key matches case-insensitively. -/
def Config.findChild : List Config → Str → Option Config
  | [], _ => none
  | c :: rest, k => if ciEquals c.key k then some c else Config.findChild rest k

/-- Embeds `Config::child` (first child with the given key, or the empty
sentinel; declared at src/osgEarth/Config line 205). -/
def Config.child (c : Config) (k : Str) : Config :=
  (Config.findChild c.children k).getD Config.emptyConf

/-- Embeds `Config::hasChild` (src/osgEarth/Config lines 187-192). -/
def Config.hasChild (c : Config) (k : Str) : Bool :=
  (Config.findChild c.children k).isSome

/-- Embeds `Config::remove` (src/osgEarth/Config lines 195-202): removes all
children whose key matches case-insensitively. -/
def Config.remove (c : Config) (k : Str) : Config :=
  .node c.key c.value (c.children.filter (fun ch => !ciEquals ch.key k)) c.isNumber

/-- Embeds `Config::add(const Config&)` (src/osgEarth/Config lines 231-235):
appends a child at the end. -/
def Config.add (c : Config) (conf : Config) : Config :=
  .node c.key c.value (c.children ++ [conf]) c.isNumber

/-- Embeds `Config::add(key, value)` (src/osgEarth/Config lines 223-228) for a
string value: appends `Config(key, value)`. -/
def Config.addKV (c : Config) (k v : Str) : Config :=
  c.add (.node k v [] false)

/-- Embeds `Config::set(const Config&)` (src/osgEarth/Config lines 344-347):
removes all children with the config's key, then appends it. -/
def Config.setConf (c : Config) (conf : Config) : Config :=
  (c.remove conf.key).add conf

/-- Embeds `Config::set(key, value)` (src/osgEarth/Config lines 359-363) for a
string value: `set(Config(key, value))`, where the `Config(key, value)`
constructor stores the value via `setValue<std::string>` (lines 541-544),
clearing the number hint. -/
def Config.set (c : Config) (k v : Str) : Config :=
  c.setConf (.node k v [] false)

/-- Embeds `Config::value(key)` (src/osgEarth/Config lines 371-376): the
trimmed value of the first matching child, or this config's own value when
that is empty and this config's key matches. -/
def Config.valueKey (c : Config) (k : Str) : Str :=
  let r := trim (c.child k).value
  if r.isEmpty && ciEquals c.key k then c.defaultValue else r

/-- Embeds `Config::hasValue` (src/osgEarth/Config lines 366-368). -/
def Config.hasValue (c : Config) (k : Str) : Bool :=
  !(c.valueKey k).isEmpty

/-- Modelled from the spec: `osgEarth::Util::as<std::string>` (StringUtils,
not under src/) returns the parsed string itself, ignoring the fallback. -/
def asString (s : Str) (_fallback : Str) : Str :=
  s

/-- Embeds the templated `Config::value<T>(key, fallback)`
(src/osgEarth/Config lines 386-391) at `T = std::string`: the raw (untrimmed)
value of the first matching child when one exists, run through `as<T>`. -/
def Config.valueStrKey (c : Config) (k fallback : Str) : Str :=
  asString (if c.hasChild k then (c.child k).value else []) fallback

/-- Embeds the templated `Config::get(key, T& output)` (src/osgEarth/Config
lines 441-447) at `T = std::string`: when `hasValue(key)`, overwrites the
output with `value<T>(key, output)` and returns true; otherwise leaves the
output untouched and returns false.  The returned pair is
(return value, output parameter after the call). -/
def Config.get (c : Config) (k out : Str) : Bool × Str :=
  if c.hasValue k then (true, c.valueStrKey k out) else (false, out)

theorem findChild_filter_append (l : List Config) (k : Str) (x : Config)
    (hx : ciEquals x.key k = true) :
    Config.findChild ((l.filter (fun ch => !ciEquals ch.key k)) ++ [x]) k = some x := by
  induction l with
  | nil => simp [Config.findChild, hx]
  | cons c rest ih =>
      by_cases hc : ciEquals c.key k = true
      · simp [List.filter_cons, hc, ih]
      · simp only [List.filter_cons, Bool.not_eq_true] at hc ⊢
        rw [hc]
        simpa [Config.findChild, hc] using ih

theorem child_set (c : Config) (k v : Str) :
    (c.set k v).child k = Config.node k v [] false ∧
      (c.set k v).hasChild k = true := by
  have hk : ciEquals (Config.node k v [] false).key k = true := by
    simp [ciEquals, Config.key]
  have hfind : Config.findChild ((c.set k v).children) k =
      some (Config.node k v [] false) := by
    simp only [Config.set, Config.setConf, Config.add, Config.remove, Config.children]
    exact findChild_filter_append c.children k _ hk
  constructor
  · simp [Config.child, hfind]
  · simp [Config.hasChild, hfind]

/-- C9, counterexample: setting the empty string as a value and reading it back
fails: `Config::get` returns false (and leaves the output parameter
untouched), because `hasValue` trims the stored value and finds it empty. -/
theorem C9_counterexample :
    ((Config.node "root".toList [] [] false).set "k".toList []).get "k".toList
        "old".toList = (false, "old".toList) := by
  decide

/-- C9 (amended): for every Config `c`, key `k` and value `v` that is nonempty
after trimming whitespace, after `c.set(k, v)` a subsequent `get(k, out)`
returns true and populates the output with exactly `v`. -/
theorem C9_set_get_roundtrip (c : Config) (k v out : Str)
    (h : (trim v).isEmpty = false) :
    (c.set k v).get k out = (true, v) := by
  obtain ⟨hchild, hhas⟩ := child_set c k v
  have hv : (c.set k v).valueKey k = trim v := by
    simp only [Config.valueKey, hchild, Config.value, h, Bool.false_and,
      Bool.if_false_left]
    simp [h]
  have hhasval : (c.set k v).hasValue k = true := by
    simp [Config.hasValue, hv, h]
  simp [Config.get, hhasval, Config.valueStrKey, hhas, hchild, asString, Config.value]

theorem C9_set_get_roundtrip_witness :
    (trim " x1 ".toList).isEmpty = false ∧
      ((Config.node "root".toList [] [] false).set "k".toList " x1 ".toList).get
          "k".toList [] = (true, " x1 ".toList) :=
  ⟨by decide,
    C9_set_get_roundtrip (Config.node "root".toList [] [] false) "k".toList
      " x1 ".toList [] (by decide)⟩

/-! ## HTTPResponse (HTTPClient.cpp lines 350-449) -/

/-- Embeds `HTTPResponse::Part` (one body segment): its headers map, the
`_size` counter maintained by the multipart decoder, and the byte stream. -/
structure Part where
  headers : List (Str × Str)
  size : Nat
  body : Str
  deriving Repr, DecidableEq

/-- Embeds `HTTPResponse`: status code, parts, MIME type, backend message,
cancellation flag, duration in seconds, last-modified timestamp and the
from-cache flag. -/
structure HTTPResponse where
  code : Nat
  parts : List Part
  mimeType : Str
  message : Str
  canceled : Bool
  duration : Rat
  lastModified : Nat
  fromCache : Bool
  deriving Repr, DecidableEq

/-- Embeds `HTTPResponse::HTTPResponse(long)` (lines 350-358): everything but
the code starts out cleared. -/
def HTTPResponse.ofCode (c : Nat) : HTTPResponse :=
  ⟨c, [], [], [], false, 0, 0, false⟩

/-- Embeds the copy constructor `HTTPResponse::HTTPResponse(const
HTTPResponse&)` (lines 360-370): the initializer list copies the code, parts,
MIME type, canceled flag and from-cache flag, but initializes `_duration_s`
with `0.0` and `_lastModified` with `0u`; `_message` is absent from the list,
so it is default-constructed empty. -/
def HTTPResponse.copy (r : HTTPResponse) : HTTPResponse :=
  { code := r.code, parts := r.parts, mimeType := r.mimeType, message := [],
    canceled := r.canceled, duration := 0, lastModified := 0, fromCache := r.fromCache }

/-- Embeds `HTTPResponse::isOK` (lines 389-392): code 200 and not canceled. -/
def HTTPResponse.isOK (r : HTTPResponse) : Bool :=
  r.code == 200 && !r.canceled

/-- Modelled from the spec: the `CodeCategory` enum constants live in the
HTTPClient header, which is not under src/; the spec (§3) names each category
after its hundred-range, so each constant carries the lower bound of its range
(and `CATEGORY_SUCCESS` doubles as the code 200 of a synthesized cache
response in `HTTPClient::doGet`). -/
def CATEGORY_UNKNOWN : Nat := 0

def CATEGORY_INFORMATIONAL : Nat := 100

def CATEGORY_SUCCESS : Nat := 200

def CATEGORY_REDIRECTION : Nat := 300

def CATEGORY_CLIENT_ERROR : Nat := 400

def CATEGORY_SERVER_ERROR : Nat := 500

/-- Embeds `HTTPResponse::getCodeCategory` (lines 377-387): a ladder of
strict-less-than tests on the status code. -/
def HTTPResponse.getCodeCategory (r : HTTPResponse) : Nat :=
  if r.code < 100 then CATEGORY_UNKNOWN
  else if r.code < 200 then CATEGORY_INFORMATIONAL
  else if r.code < 300 then CATEGORY_SUCCESS
  else if r.code < 400 then CATEGORY_REDIRECTION
  else if r.code < 500 then CATEGORY_CLIENT_ERROR
  else CATEGORY_SERVER_ERROR

/-- Modelled from the spec: the `HTTPResponse::Code` enum values (HTTPClient
header, not under src/); the spec's §7 table gives not-modified = 304,
not-found = 404 and unauthorized from 403 (`FORBIDDEN`). -/
def HTTP_NOT_MODIFIED : Nat := 304

def HTTP_FORBIDDEN : Nat := 403

def HTTP_NOT_FOUND : Nat := 404

/-- Embeds `HTTPResponse::getPartAsString` (lines 414-420): the body of part
`n` when it exists, else the empty string. -/
def HTTPResponse.getPartAsString (r : HTTPResponse) (n : Nat) : Str :=
  match r.parts.get? n with
  | some p => p.body
  | none => []

/-- Embeds `HTTPResponse::getHeadersAsConfig` (lines 427-437): a Config keyed
`HTTP Response Headers` whose children are the part-0 headers, in order. -/
def HTTPResponse.getHeadersAsConfig (r : HTTPResponse) : Config :=
  Config.node "HTTP Response Headers".toList []
    (match r.parts with
     | [] => []
     | p :: _ => p.headers.map (fun h => Config.node h.1 h.2 [] false))
    false

/-- Embeds `HTTPResponse::setHeadersFromConfig` (lines 439-449): when a part
exists, assigns `part0.headers[key] = value` for every child of the config. -/
def HTTPResponse.setHeadersFromConfig (r : HTTPResponse) (conf : Config) : HTTPResponse :=
  match r.parts with
  | [] => r
  | p :: rest =>
      { r with parts :=
          { p with headers :=
              conf.children.foldl (fun m ch => upsert m ch.key ch.value) p.headers } :: rest }

/-- C10: the `HTTPResponse` copy constructor copies the response code, parts,
MIME type, canceled flag and from-cache flag, while the copy's duration and
last-modified timestamp are always zero, regardless of their values in the
source. -/
theorem C10_copy_ctor (r : HTTPResponse) :
    r.copy.code = r.code ∧ r.copy.parts = r.parts ∧
      r.copy.mimeType = r.mimeType ∧ r.copy.canceled = r.canceled ∧
      r.copy.fromCache = r.fromCache ∧
      r.copy.duration = 0 ∧ r.copy.lastModified = 0 :=
  ⟨rfl, rfl, rfl, rfl, rfl, rfl, rfl⟩

/-! ## Cache bin and the read-through `HTTPClient::doGet` (lines 1540-1641) -/

/-- Embeds `std::string::find(needle) != std::string::npos`: whether `needle`
occurs as a contiguous substring. -/
def containsSub (needle : Str) : Str → Bool
  | [] => needle.isEmpty
  | c :: rest => needle.isPrefixOf (c :: rest) || containsSub needle rest

/-- One cached entry: the stored blob, the response-header metadata Config and
the entry's timestamp (its last-modified time). -/
structure CacheEntry where
  blob : Str
  meta : Config
  timestamp : Nat

/-- Modelled from the spec: a `CacheBin` (§4.4, the CacheBin implementation is
not under src/) is a key/value store of blobs with metadata and a timestamp,
here an association list from cache key to entry. -/
abbrev CacheBin := List (Str × CacheEntry)

/-- Modelled from the spec: `CacheBin::readString(key)` returns the stored
entry (blob, metadata, last-modified time) when the key is present. -/
def CacheBin.read : CacheBin → Str → Option CacheEntry
  | [], _ => none
  | (k', e) :: rest, k => if k' = k then some e else CacheBin.read rest k

/-- Modelled from the spec: `CacheBin::write(key, blob, metadata)` stores the
blob plus the response headers as metadata, stamping the entry with the
current time. -/
def CacheBin.write : CacheBin → Str → Str → Config → Nat → CacheBin
  | [], k, blob, meta, now => [(k, ⟨blob, meta, now⟩)]
  | (k', e) :: rest, k, blob, meta, now =>
      if k' = k then (k, ⟨blob, meta, now⟩) :: rest
      else (k', e) :: CacheBin.write rest k blob meta now

/-- Modelled from the spec: `CacheBin::touch(key)` updates only the entry's
timestamp. -/
def CacheBin.touch : CacheBin → Str → Nat → CacheBin
  | [], _, _ => []
  | (k', e) :: rest, k, now =>
      if k' = k then (k', { e with timestamp := now }) :: CacheBin.touch rest k now
      else (k', e) :: CacheBin.touch rest k now

/-- The cached contents (blob and metadata, without the timestamp) stored
under a key. -/
def CacheBin.contentsAt (b : CacheBin) (k : Str) : Option (Str × Config) :=
  (b.read k).map (fun e => (e.blob, e.meta))

/-- Embeds `CachePolicy::Usage` (Cache header; the three usages named by the
spec §3). -/
inductive CacheUsage where
  | READ_WRITE
  | CACHE_ONLY
  | NO_CACHE
  deriving Repr, DecidableEq

/-- Modelled from the spec: `CachePolicy` (§3; the Cache header is not under
src/) with `isExpired(ts) = (now − ts > maxAge) ∨ forceExpire`. -/
structure CachePolicy where
  usage : CacheUsage
  maxAge : Nat
  forceExpire : Bool
  deriving Repr, DecidableEq

def CachePolicy.isExpired (p : CachePolicy) (now ts : Nat) : Bool :=
  decide (now - ts > p.maxAge) || p.forceExpire

/-- Modelled from the spec: `HTTPClient::doGet` compares the transport code
against `ReadResult::RESULT_NOT_MODIFIED` (IOTypes header, not under src/);
per the spec (§4.5) this test is the not-modified (304) revalidation check. -/
def RESULT_NOT_MODIFIED_httpCode : Nat := 304

/-- Embeds the synthesized cache-hit response of `HTTPClient::doGet`
(lines 1598-1606): code `CATEGORY_SUCCESS`, a single part holding the cached
blob, the MIME type taken from the metadata's `content-type`, the part-0
headers restored from the metadata, and `fromCache` set. -/
def cachedResponse (e : CacheEntry) : HTTPResponse :=
  let base : HTTPResponse :=
    { HTTPResponse.ofCode CATEGORY_SUCCESS with
      parts := [⟨[], 0, e.blob⟩],
      mimeType := e.meta.valueKey "content-type".toList,
      fromCache := true }
  base.setHeadersFromConfig e.meta

/-- What one `HTTPClient::doGet` call produced: the returned response, the
cache bin afterwards, and whether the transport was invoked, a cache write
happened, or a cached entry was touched. -/
structure DoGetOutcome where
  response : HTTPResponse
  bin : Option CacheBin
  transportCalled : Bool
  wroteCache : Bool
  touchedCache : Bool

/-- The cache lookup of `doGet` (lines 1579-1581): `bin->readString(cacheKey)`
when a bin is configured. -/
def doGetLookup (bin : Option CacheBin) (key : Str) : Option CacheEntry :=
  match bin with
  | none => none
  | some b => b.read key

/-- The `expired` flag of `doGet` (lines 1586-1595): on a hit, true when the
metadata's `cache-control` value contains `no-cache` or the policy says the
entry's timestamp is expired; false on a miss. -/
def doGetExpired (policy : CachePolicy) (now : Nat) : Option CacheEntry → Bool
  | none => false
  | some e =>
      containsSub "no-cache".toList (e.meta.valueKey "cache-control".toList) ||
        policy.isExpired now e.timestamp

/-- The `response` local of `doGet` before the transport phase: the default
`HTTPResponse()` (code 0) on a miss, the synthesized cache response on a hit
(lines 1574, 1598-1606). -/
def doGetResponse0 : Option CacheEntry → HTTPResponse
  | none => HTTPResponse.ofCode 0
  | some e => cachedResponse e

/-- Embeds `HTTPClient::doGet` (HTTPClient.cpp lines 1540-1641).  The response
the transport implementation would return is passed as `remote`; `now` is the
wall-clock time used for expiry, writes and touches.  Mirrors the source: the
transport runs when the entry is expired or missing and the policy is not
cache-only; a 304 transport code touches the cached key and keeps the
synthesized cache response; otherwise the transport response is adopted and
written back to the bin only when it `isOK()`. -/
def clientDoGet (bin : Option CacheBin) (policy : CachePolicy) (now : Nat)
    (key : Str) (remote : HTTPResponse) : DoGetOutcome :=
  if (doGetExpired policy now (doGetLookup bin key) ||
        !(doGetLookup bin key).isSome) &&
      !(policy.usage == CacheUsage.CACHE_ONLY) then
    if remote.code == RESULT_NOT_MODIFIED_httpCode then
      { response := doGetResponse0 (doGetLookup bin key),
        bin := bin.map (fun b => b.touch key now),
        transportCalled := true, wroteCache := false, touchedCache := bin.isSome }
    else if remote.isOK && bin.isSome then
      { response := remote,
        bin := bin.map (fun b =>
          b.write key (remote.getPartAsString 0) remote.getHeadersAsConfig now),
        transportCalled := true, wroteCache := true, touchedCache := false }
    else
      { response := remote, bin := bin,
        transportCalled := true, wroteCache := false, touchedCache := false }
  else
    { response := doGetResponse0 (doGetLookup bin key), bin := bin,
      transportCalled := false, wroteCache := false, touchedCache := false }

theorem read_touch (b : CacheBin) (k : Str) (now : Nat) :
    (b.touch k now).read k = (b.read k).map (fun e => { e with timestamp := now }) := by
  induction b with
  | nil => rfl
  | cons p rest ih =>
      obtain ⟨k', e⟩ := p
      by_cases hk : k' = k
      · subst hk
        simp [CacheBin.touch, CacheBin.read]
      · simp only [CacheBin.touch, if_neg hk, CacheBin.read]
        exact ih

theorem contentsAt_touch (b : CacheBin) (k : Str) (now : Nat) :
    (b.touch k now).contentsAt k = b.contentsAt k := by
  simp only [CacheBin.contentsAt, read_touch]
  cases b.read k <;> rfl

/-- C2: with a cache bin configured, `doGet` writes to the bin only when the
transport response satisfies `isOK()`; for a canceled response or any code
other than 200 the cached blob and metadata under the request's key are left
unchanged (a 304 merely refreshes the timestamp). -/
theorem C2_cache_write_only_isOK (b : CacheBin) (policy : CachePolicy)
    (now : Nat) (key : Str) (remote : HTTPResponse)
    (h : remote.isOK = false) :
    (clientDoGet (some b) policy now key remote).wroteCache = false ∧
      ((clientDoGet (some b) policy now key remote).bin.map
          (fun nb => CacheBin.contentsAt nb key)) = some (b.contentsAt key) := by
  unfold clientDoGet
  split
  · split
    · exact ⟨rfl, congrArg some (contentsAt_touch b key now)⟩
    · split
      · rename_i hw
        rw [h] at hw
        simp at hw
      · exact ⟨rfl, rfl⟩
  · exact ⟨rfl, rfl⟩

theorem C2_cache_write_only_isOK_witness :
    ((HTTPResponse.ofCode 500).isOK = false) ∧
      ((clientDoGet (some ([] : CacheBin)) ⟨CacheUsage.READ_WRITE, 60, false⟩ 100
          "k".toList (HTTPResponse.ofCode 500)).wroteCache = false ∧
        ((clientDoGet (some ([] : CacheBin)) ⟨CacheUsage.READ_WRITE, 60, false⟩ 100
            "k".toList (HTTPResponse.ofCode 500)).bin.map
          (fun nb => CacheBin.contentsAt nb "k".toList)) =
            some (CacheBin.contentsAt ([] : CacheBin) "k".toList)) :=
  ⟨by decide,
    C2_cache_write_only_isOK ([] : CacheBin) ⟨CacheUsage.READ_WRITE, 60, false⟩ 100
      "k".toList (HTTPResponse.ofCode 500) (by decide)⟩

/-- C3: on a cache hit whose metadata `cache-control` value contains the
substring `no-cache`, the entry counts as expired regardless of age, so the
transport is invoked whenever the cache policy usage is not CACHE_ONLY. -/
theorem C3_no_cache_forces_transport (b : CacheBin) (policy : CachePolicy)
    (now : Nat) (key : Str) (remote : HTTPResponse) (e : CacheEntry)
    (hread : b.read key = some e)
    (hnc : containsSub "no-cache".toList
        (e.meta.valueKey "cache-control".toList) = true)
    (husage : policy.usage ≠ CacheUsage.CACHE_ONLY) :
    (clientDoGet (some b) policy now key remote).transportCalled = true := by
  have husage' : (policy.usage == CacheUsage.CACHE_ONLY) = false := by
    simpa using husage
  have h1 : doGetLookup (some b) key = some e := hread
  have h2 : doGetExpired policy now (doGetLookup (some b) key) = true := by
    rw [h1]
    show (containsSub "no-cache".toList (e.meta.valueKey "cache-control".toList) ||
        policy.isExpired now e.timestamp) = true
    rw [hnc]
    simp
  unfold clientDoGet
  split
  · split
    · rfl
    · split <;> rfl
  · rename_i hn
    refine absurd ?_ hn
    rw [h2, husage']
    simp

/-- C4: when the cached entry is expired (or marked no-cache) and the
transport returns 304, `doGet` touches the cached key (updating only its
timestamp) and returns the response reconstructed from the cached blob and
metadata, not the transport response; nothing is written. -/
theorem C4_not_modified_touch_and_cached (b : CacheBin) (policy : CachePolicy)
    (now : Nat) (key : Str) (remote : HTTPResponse) (e : CacheEntry)
    (hread : b.read key = some e)
    (hexp : (containsSub "no-cache".toList (e.meta.valueKey "cache-control".toList) ||
        policy.isExpired now e.timestamp) = true)
    (husage : policy.usage ≠ CacheUsage.CACHE_ONLY)
    (h304 : remote.code = 304) :
    (clientDoGet (some b) policy now key remote).response = cachedResponse e ∧
      (clientDoGet (some b) policy now key remote).bin = some (b.touch key now) ∧
      (clientDoGet (some b) policy now key remote).wroteCache = false ∧
      (clientDoGet (some b) policy now key remote).transportCalled = true := by
  have husage' : (policy.usage == CacheUsage.CACHE_ONLY) = false := by
    simpa using husage
  have h1 : doGetLookup (some b) key = some e := hread
  have h2 : doGetExpired policy now (some e) = true := by
    show (containsSub "no-cache".toList (e.meta.valueKey "cache-control".toList) ||
        policy.isExpired now e.timestamp) = true
    exact hexp
  have h3 : (remote.code == RESULT_NOT_MODIFIED_httpCode) = true := by
    rw [h304]
    rfl
  unfold clientDoGet
  simp only [h1, h2, husage', h3, Option.isSome_some, Bool.not_true,
    Bool.or_false, Bool.true_or, Bool.not_false, Bool.and_true,
    eq_self_iff_true, if_true]
  simp [doGetResponse0]

/-- A concrete header metadata Config whose `cache-control` value carries
`no-cache`, with its cache entry and a one-entry bin, for witnesses. -/
def noCacheMeta : Config :=
  Config.node "HTTP Response Headers".toList []
    [Config.node "cache-control".toList "no-cache".toList [] false] false

def noCacheEntry : CacheEntry :=
  ⟨"blob".toList, noCacheMeta, 10⟩

def noCacheBin : CacheBin :=
  [("k".toList, noCacheEntry)]

theorem C3_no_cache_forces_transport_witness :
    noCacheBin.read "k".toList = some noCacheEntry ∧
      containsSub "no-cache".toList
        (noCacheEntry.meta.valueKey "cache-control".toList) = true ∧
      (⟨CacheUsage.READ_WRITE, 60, false⟩ : CachePolicy).usage ≠ CacheUsage.CACHE_ONLY ∧
      (clientDoGet (some noCacheBin) ⟨CacheUsage.READ_WRITE, 60, false⟩ 11 "k".toList
          (HTTPResponse.ofCode 200)).transportCalled = true :=
  ⟨rfl, by decide, by decide,
    C3_no_cache_forces_transport noCacheBin ⟨CacheUsage.READ_WRITE, 60, false⟩ 11
      "k".toList (HTTPResponse.ofCode 200) noCacheEntry rfl (by decide) (by decide)⟩

theorem C4_not_modified_touch_and_cached_witness :
    noCacheBin.read "k".toList = some noCacheEntry ∧
      (containsSub "no-cache".toList
          (noCacheEntry.meta.valueKey "cache-control".toList) ||
        CachePolicy.isExpired ⟨CacheUsage.READ_WRITE, 60, false⟩ 100
          noCacheEntry.timestamp) = true ∧
      (⟨CacheUsage.READ_WRITE, 60, false⟩ : CachePolicy).usage ≠ CacheUsage.CACHE_ONLY ∧
      (HTTPResponse.ofCode 304).code = 304 ∧
      ((clientDoGet (some noCacheBin) ⟨CacheUsage.READ_WRITE, 60, false⟩ 100 "k".toList
          (HTTPResponse.ofCode 304)).response = cachedResponse noCacheEntry ∧
        (clientDoGet (some noCacheBin) ⟨CacheUsage.READ_WRITE, 60, false⟩ 100 "k".toList
            (HTTPResponse.ofCode 304)).bin = some (noCacheBin.touch "k".toList 100) ∧
        (clientDoGet (some noCacheBin) ⟨CacheUsage.READ_WRITE, 60, false⟩ 100 "k".toList
            (HTTPResponse.ofCode 304)).wroteCache = false ∧
        (clientDoGet (some noCacheBin) ⟨CacheUsage.READ_WRITE, 60, false⟩ 100 "k".toList
            (HTTPResponse.ofCode 304)).transportCalled = true) :=
  ⟨rfl, by decide, by decide, rfl,
    C4_not_modified_touch_and_cached noCacheBin ⟨CacheUsage.READ_WRITE, 60, false⟩ 100
      "k".toList (HTTPResponse.ofCode 304) noCacheEntry rfl (by decide) (by decide) rfl⟩

/-! ## Typed reads (doReadImage / doReadNode / doReadObject / doReadString,
HTTPClient.cpp lines 1741-2130) -/

/-- Modelled from the spec: the `ReadResult` error-code enumeration (IOTypes
header, not under src/), as named by §7 of the spec and used by the typed
reads. -/
inductive RRCode where
  | RESULT_OK
  | RESULT_CANCELED
  | RESULT_NOT_FOUND
  | RESULT_NOT_MODIFIED
  | RESULT_UNAUTHORIZED
  | RESULT_SERVER_ERROR
  | RESULT_TIMEOUT
  | RESULT_NO_READER
  | RESULT_READER_ERROR
  | RESULT_UNKNOWN_ERROR
  deriving Repr, DecidableEq

/-- Modelled from the spec: `HTTPClient::isRecoverable` (HTTPClient header,
not under src/); §7 names the recoverable codes SERVER_ERROR, TIMEOUT and
CANCELED. -/
def isRecoverable : RRCode → Bool
  | .RESULT_SERVER_ERROR => true
  | .RESULT_TIMEOUT => true
  | .RESULT_CANCELED => true
  | _ => false

/-- The observable state of a `ProgressCallback` as driven by the typed
reads: the retry delay installed by `setRetryDelay`, the canceled flag, and
the mutable message. -/
structure ProgressState where
  retryDelay : Option Rat
  canceled : Bool
  message : Str
  deriving Repr, DecidableEq

/-- The decoded payload of a successful typed read; the osg objects are
opaque to this subsystem, only a decoded string is observable. -/
inductive ReadObject where
  | image
  | node
  | object
  | str (s : Str)
  deriving Repr, DecidableEq

/-- Embeds the fields of `ReadResult` that the typed reads populate. -/
structure ReadResult where
  code : RRCode
  errorDetail : Str
  lastModified : Nat
  duration : Rat
  fromCache : Bool
  metadata : Config
  obj : Option ReadObject

/-- Embeds `setMetadata` (HTTPClient.cpp lines 217-240): the response headers
config re-keyed `HTTP GET`, with an appended `osgEarth Request` child holding
the request URI and either the request error (code 0) or the response code and
request headers. -/
def mkMetadata (request : HTTPRequest) (response : HTTPResponse) : Config :=
  let r0 := (Config.node "osgEarth Request".toList [] [] false).addKV
    "URI".toList request.getURL
  let r1 :=
    if response.code = 0 then
      if !response.message.isEmpty then
        r0.addKV "Request Error".toList response.message
      else
        r0.add (Config.node "Request Error (UNKNOWN)".toList [] [] false)
    else
      (r0.addKV "HTTP Response Code".toList (Nat.repr response.code).toList).add
        (Config.node "HTTP Request Headers".toList []
          (request.headers.map (fun h => Config.node h.1 h.2 [] false)) false)
  (Config.node "HTTP GET".toList [] response.getHeadersAsConfig.children false).add r1

/-- The outcome of the external osgDB reader machinery (`getReader` plus the
plugin's read call), which lives outside this subsystem: whether a reader was
found, whether it produced a valid result from part 0, and its message. -/
structure DecoderOracle where
  hasReader : Bool
  valid : Bool
  message : Str
  deriving Repr, DecidableEq

/-- Embeds the error-code cascade of `doReadImage` (lines 1794-1800):
canceled, 404, 304, 403 (FORBIDDEN → UNAUTHORIZED), server-error category,
otherwise unknown. -/
def imageErrorCode (resp : HTTPResponse) : RRCode :=
  if resp.canceled then .RESULT_CANCELED
  else if resp.code == HTTP_NOT_FOUND then .RESULT_NOT_FOUND
  else if resp.code == HTTP_NOT_MODIFIED then .RESULT_NOT_MODIFIED
  else if resp.code == HTTP_FORBIDDEN then .RESULT_UNAUTHORIZED
  else if resp.getCodeCategory == CATEGORY_SERVER_ERROR then .RESULT_SERVER_ERROR
  else .RESULT_UNKNOWN_ERROR

/-- Embeds the error-code cascade of `doReadNode` (lines 1903-1908): like the
image cascade but with no FORBIDDEN case. -/
def nodeErrorCode (resp : HTTPResponse) : RRCode :=
  if resp.canceled then .RESULT_CANCELED
  else if resp.code == HTTP_NOT_FOUND then .RESULT_NOT_FOUND
  else if resp.code == HTTP_NOT_MODIFIED then .RESULT_NOT_MODIFIED
  else if resp.getCodeCategory == CATEGORY_SERVER_ERROR then .RESULT_SERVER_ERROR
  else .RESULT_UNKNOWN_ERROR

/-- Embeds the error-code cascade of `doReadObject` (lines 2009-2014): no
FORBIDDEN case. -/
def objectErrorCode (resp : HTTPResponse) : RRCode :=
  if resp.canceled then .RESULT_CANCELED
  else if resp.code == HTTP_NOT_FOUND then .RESULT_NOT_FOUND
  else if resp.code == HTTP_NOT_MODIFIED then .RESULT_NOT_MODIFIED
  else if resp.getCodeCategory == CATEGORY_SERVER_ERROR then .RESULT_SERVER_ERROR
  else .RESULT_UNKNOWN_ERROR

/-- Embeds the error-code cascade of `doReadString` (lines 2079-2084): no
FORBIDDEN case. -/
def stringErrorCode (resp : HTTPResponse) : RRCode :=
  if resp.canceled then .RESULT_CANCELED
  else if resp.code == HTTP_NOT_FOUND then .RESULT_NOT_FOUND
  else if resp.code == HTTP_NOT_MODIFIED then .RESULT_NOT_MODIFIED
  else if resp.getCodeCategory == CATEGORY_SERVER_ERROR then .RESULT_SERVER_ERROR
  else .RESULT_UNKNOWN_ERROR

/-- Embeds the recoverable-error signalling of `doReadImage` (lines
1814-1839): when the result code is recoverable and a callback is present, set
its retry delay to the client's retry delay, cancel it, and on a 503 response
overwrite its message with `Server deferral`. -/
def signalRetryImage (code : RRCode) (retryDelay : Rat) (is503 : Bool)
    (cb : Option ProgressState) : Option ProgressState :=
  if isRecoverable code then
    match cb with
    | some st =>
        some { st with
                retryDelay := some retryDelay
                canceled := true
                message := if is503 then "Server deferral".toList else st.message }
    | none => none
  else cb

/-- Embeds the recoverable-error signalling of `doReadNode` / `doReadObject` /
`doReadString` (lines 1927-1947, 2033-2053, 2098-2118): set the retry delay
and cancel, with no 503 message. -/
def signalRetry (code : RRCode) (retryDelay : Rat)
    (cb : Option ProgressState) : Option ProgressState :=
  if isRecoverable code then
    match cb with
    | some st =>
        some { st with retryDelay := some retryDelay, canceled := true }
    | none => none
  else cb

/-- Embeds `HTTPClient::doReadImage` (lines 1741-1852), with the osgDB reader
machinery abstracted by `oracle` and the already-computed `doGet` response
passed as `resp`.  Returns the read result and the progress-callback state
after the call. -/
def doReadImage (oracle : DecoderOracle) (retryDelay : Rat)
    (request : HTTPRequest) (resp : HTTPResponse)
    (cb : Option ProgressState) : ReadResult × Option ProgressState :=
  if resp.isOK then
    if !oracle.hasReader then
      ({ code := .RESULT_NO_READER,
         errorDetail := "Content-Type=".toList ++ resp.mimeType,
         lastModified := resp.lastModified, duration := resp.duration,
         fromCache := resp.fromCache, metadata := mkMetadata request resp,
         obj := none }, cb)
    else if decide (resp.parts.length > 0) && oracle.valid then
      ({ code := .RESULT_OK, errorDetail := [],
         lastModified := resp.lastModified, duration := resp.duration,
         fromCache := resp.fromCache, metadata := mkMetadata request resp,
         obj := some .image }, cb)
    else
      ({ code := .RESULT_READER_ERROR,
         errorDetail := if decide (resp.parts.length > 0) then oracle.message else [],
         lastModified := resp.lastModified, duration := resp.duration,
         fromCache := resp.fromCache, metadata := mkMetadata request resp,
         obj := none }, cb)
  else
    ({ code := imageErrorCode resp,
       errorDetail := if decide (resp.parts.length > 0) then resp.getPartAsString 0 else [],
       lastModified := 0, duration := 0,
       fromCache := resp.fromCache, metadata := mkMetadata request resp,
       obj := none },
     signalRetryImage (imageErrorCode resp) retryDelay (resp.code == 503) cb)

/-- Embeds `HTTPClient::doReadNode` (lines 1854-1957): like the image read but
with no FORBIDDEN mapping and no error detail on NO_READER. -/
def doReadNode (oracle : DecoderOracle) (retryDelay : Rat)
    (request : HTTPRequest) (resp : HTTPResponse)
    (cb : Option ProgressState) : ReadResult × Option ProgressState :=
  if resp.isOK then
    if !oracle.hasReader then
      ({ code := .RESULT_NO_READER, errorDetail := [],
         lastModified := resp.lastModified, duration := 0,
         fromCache := resp.fromCache, metadata := mkMetadata request resp,
         obj := none }, cb)
    else if decide (resp.parts.length > 0) && oracle.valid then
      ({ code := .RESULT_OK, errorDetail := [],
         lastModified := resp.lastModified, duration := 0,
         fromCache := resp.fromCache, metadata := mkMetadata request resp,
         obj := some .node }, cb)
    else
      ({ code := .RESULT_READER_ERROR,
         errorDetail := if decide (resp.parts.length > 0) then oracle.message else [],
         lastModified := resp.lastModified, duration := 0,
         fromCache := resp.fromCache, metadata := mkMetadata request resp,
         obj := none }, cb)
  else
    ({ code := nodeErrorCode resp,
       errorDetail := if decide (resp.parts.length > 0) then resp.getPartAsString 0 else [],
       lastModified := 0, duration := 0,
       fromCache := resp.fromCache, metadata := mkMetadata request resp,
       obj := none },
     signalRetry (nodeErrorCode resp) retryDelay cb)

/-- Embeds `HTTPClient::doReadObject` (lines 1959-2060): like the node read,
with the Content-Type error detail on NO_READER and no from-cache flag
propagation (the source omits `setIsFromCache` here). -/
def doReadObject (oracle : DecoderOracle) (retryDelay : Rat)
    (request : HTTPRequest) (resp : HTTPResponse)
    (cb : Option ProgressState) : ReadResult × Option ProgressState :=
  if resp.isOK then
    if !oracle.hasReader then
      ({ code := .RESULT_NO_READER,
         errorDetail := "Content-Type=".toList ++ resp.mimeType,
         lastModified := resp.lastModified, duration := 0,
         fromCache := false, metadata := mkMetadata request resp,
         obj := none }, cb)
    else if decide (resp.parts.length > 0) && oracle.valid then
      ({ code := .RESULT_OK, errorDetail := [],
         lastModified := resp.lastModified, duration := 0,
         fromCache := false, metadata := mkMetadata request resp,
         obj := some .object }, cb)
    else
      ({ code := .RESULT_READER_ERROR,
         errorDetail := if decide (resp.parts.length > 0) then oracle.message else [],
         lastModified := resp.lastModified, duration := 0,
         fromCache := false, metadata := mkMetadata request resp,
         obj := none }, cb)
  else
    ({ code := objectErrorCode resp,
       errorDetail := if decide (resp.parts.length > 0) then resp.getPartAsString 0 else [],
       lastModified := 0, duration := 0,
       fromCache := false, metadata := mkMetadata request resp,
       obj := none },
     signalRetry (objectErrorCode resp) retryDelay cb)

/-- Embeds `HTTPClient::doReadString` (lines 2063-2130): success requires an
OK response with at least one part, and produces the part-0 body as a string
object; the from-cache flag and last-modified time are set on both paths. -/
def doReadString (retryDelay : Rat) (request : HTTPRequest)
    (resp : HTTPResponse) (cb : Option ProgressState) :
    ReadResult × Option ProgressState :=
  if resp.isOK && decide (resp.parts.length > 0) then
    ({ code := .RESULT_OK, errorDetail := [],
       lastModified := resp.lastModified, duration := 0,
       fromCache := resp.fromCache, metadata := mkMetadata request resp,
       obj := some (.str (resp.getPartAsString 0)) }, cb)
  else
    ({ code := stringErrorCode resp,
       errorDetail := if decide (resp.parts.length > 0) then resp.getPartAsString 0 else [],
       lastModified := resp.lastModified, duration := 0,
       fromCache := resp.fromCache, metadata := mkMetadata request resp,
       obj := none },
     signalRetry (stringErrorCode resp) retryDelay cb)

theorem doReadImage_code_of_error (oracle : DecoderOracle) (rd : Rat)
    (request : HTTPRequest) (resp : HTTPResponse) (cb : Option ProgressState)
    (hok : resp.isOK = false) :
    (doReadImage oracle rd request resp cb).1.code = imageErrorCode resp := by
  unfold doReadImage
  simp [hok]

theorem doReadNode_code_of_error (oracle : DecoderOracle) (rd : Rat)
    (request : HTTPRequest) (resp : HTTPResponse) (cb : Option ProgressState)
    (hok : resp.isOK = false) :
    (doReadNode oracle rd request resp cb).1.code = nodeErrorCode resp := by
  unfold doReadNode
  simp [hok]

theorem doReadObject_code_of_error (oracle : DecoderOracle) (rd : Rat)
    (request : HTTPRequest) (resp : HTTPResponse) (cb : Option ProgressState)
    (hok : resp.isOK = false) :
    (doReadObject oracle rd request resp cb).1.code = objectErrorCode resp := by
  unfold doReadObject
  simp [hok]

theorem doReadString_code_of_error (rd : Rat)
    (request : HTTPRequest) (resp : HTTPResponse) (cb : Option ProgressState)
    (hok : resp.isOK = false) :
    (doReadString rd request resp cb).1.code = stringErrorCode resp := by
  unfold doReadString
  simp [hok]

theorem getCodeCategory_of_4xx (resp : HTTPResponse)
    (h1 : 400 ≤ resp.code) (h2 : resp.code < 500) :
    resp.getCodeCategory = CATEGORY_CLIENT_ERROR := by
  unfold HTTPResponse.getCodeCategory
  rw [if_neg (by omega), if_neg (by omega), if_neg (by omega), if_neg (by omega),
    if_pos h2]

/-- C5, counterexample: a 401 response (not canceled, not OK) yields
`UNKNOWN_ERROR` from `doReadImage`, and a 403 response yields `UNKNOWN_ERROR`
from `doReadNode` — not `UNAUTHORIZED` as claimed. -/
theorem C5_counterexample :
    ((doReadImage ⟨true, true, []⟩ 1 (HTTPRequest.make "u".toList)
          (HTTPResponse.ofCode 401) none).1.code = RRCode.RESULT_UNKNOWN_ERROR ∧
        (doReadNode ⟨true, true, []⟩ 1 (HTTPRequest.make "u".toList)
          (HTTPResponse.ofCode 403) none).1.code = RRCode.RESULT_UNKNOWN_ERROR) ∧
      RRCode.RESULT_UNKNOWN_ERROR ≠ RRCode.RESULT_UNAUTHORIZED := by
  constructor
  · constructor
    · rw [doReadImage_code_of_error _ _ _ _ _ (by decide)]
      decide
    · rw [doReadNode_code_of_error _ _ _ _ _ (by decide)]
      decide
  · decide

/-- C5 (amended): among the typed reads only `doReadImage` maps a (not
canceled) 403 response to `UNAUTHORIZED`; a 401 response yields
`UNKNOWN_ERROR` from every typed read, and a 403 response yields
`UNKNOWN_ERROR` from `doReadNode`, `doReadObject` and `doReadString`. -/
theorem C5_unauthorized_mapping (oracle : DecoderOracle) (rd : Rat)
    (request : HTTPRequest) (resp : HTTPResponse) (cb : Option ProgressState)
    (hok : resp.isOK = false) (hc : resp.canceled = false) :
    (resp.code = 403 →
      (doReadImage oracle rd request resp cb).1.code = RRCode.RESULT_UNAUTHORIZED) ∧
    (resp.code = 401 ∨ resp.code = 403 →
      (doReadNode oracle rd request resp cb).1.code = RRCode.RESULT_UNKNOWN_ERROR ∧
      (doReadObject oracle rd request resp cb).1.code = RRCode.RESULT_UNKNOWN_ERROR ∧
      (doReadString rd request resp cb).1.code = RRCode.RESULT_UNKNOWN_ERROR) ∧
    (resp.code = 401 →
      (doReadImage oracle rd request resp cb).1.code = RRCode.RESULT_UNKNOWN_ERROR) := by
  refine ⟨?_, ?_, ?_⟩
  · intro h403
    rw [doReadImage_code_of_error _ _ _ _ _ hok]
    unfold imageErrorCode
    simp [hc, h403, HTTP_NOT_FOUND, HTTP_NOT_MODIFIED, HTTP_FORBIDDEN]
  · intro hcode
    have hcat : resp.getCodeCategory = CATEGORY_CLIENT_ERROR := by
      rcases hcode with h | h <;> exact getCodeCategory_of_4xx resp (by omega) (by omega)
    have hne : resp.code ≠ 404 := by rcases hcode with h | h <;> omega
    have hne2 : resp.code ≠ 304 := by rcases hcode with h | h <;> omega
    refine ⟨?_, ?_, ?_⟩
    · rw [doReadNode_code_of_error _ _ _ _ _ hok]
      unfold nodeErrorCode
      simp [hc, hne, hne2, hcat, HTTP_NOT_FOUND, HTTP_NOT_MODIFIED,
        CATEGORY_CLIENT_ERROR, CATEGORY_SERVER_ERROR]
    · rw [doReadObject_code_of_error _ _ _ _ _ hok]
      unfold objectErrorCode
      simp [hc, hne, hne2, hcat, HTTP_NOT_FOUND, HTTP_NOT_MODIFIED,
        CATEGORY_CLIENT_ERROR, CATEGORY_SERVER_ERROR]
    · rw [doReadString_code_of_error _ _ _ _ hok]
      unfold stringErrorCode
      simp [hc, hne, hne2, hcat, HTTP_NOT_FOUND, HTTP_NOT_MODIFIED,
        CATEGORY_CLIENT_ERROR, CATEGORY_SERVER_ERROR]
  · intro h401
    have hcat : resp.getCodeCategory = CATEGORY_CLIENT_ERROR :=
      getCodeCategory_of_4xx resp (by omega) (by omega)
    rw [doReadImage_code_of_error _ _ _ _ _ hok]
    unfold imageErrorCode
    simp [hc, h401, hcat, HTTP_NOT_FOUND, HTTP_NOT_MODIFIED, HTTP_FORBIDDEN,
      CATEGORY_CLIENT_ERROR, CATEGORY_SERVER_ERROR]

theorem C5_unauthorized_mapping_witness :
    (HTTPResponse.ofCode 403).isOK = false ∧
      (HTTPResponse.ofCode 403).canceled = false ∧
      (doReadImage ⟨true, true, []⟩ 1 (HTTPRequest.make "u".toList)
          (HTTPResponse.ofCode 403) none).1.code = RRCode.RESULT_UNAUTHORIZED ∧
      (doReadString 1 (HTTPRequest.make "u".toList)
          (HTTPResponse.ofCode 403) none).1.code = RRCode.RESULT_UNKNOWN_ERROR :=
  ⟨by decide, by decide,
    (C5_unauthorized_mapping ⟨true, true, []⟩ 1 (HTTPRequest.make "u".toList)
      (HTTPResponse.ofCode 403) none (by decide) (by decide)).1 rfl,
    ((C5_unauthorized_mapping ⟨true, true, []⟩ 1 (HTTPRequest.make "u".toList)
      (HTTPResponse.ofCode 403) none (by decide) (by decide)).2.1 (Or.inr rfl)).2.2⟩

theorem retrySignal_image (oracle : DecoderOracle) (rd : Rat)
    (request : HTTPRequest) (resp : HTTPResponse) (st : ProgressState) :
    isRecoverable (doReadImage oracle rd request resp (some st)).1.code = true →
      (doReadImage oracle rd request resp (some st)).2.map
          ProgressState.retryDelay = some (some rd) ∧
      (doReadImage oracle rd request resp (some st)).2.map
          ProgressState.canceled = some true := by
  by_cases hok : resp.isOK = true
  · unfold doReadImage
    simp only [hok, if_true]
    split
    · intro h
      simp [isRecoverable] at h
    · split
      · intro h
        simp [isRecoverable] at h
      · intro h
        simp [isRecoverable] at h
  · have hok' : resp.isOK = false := by simpa using hok
    unfold doReadImage
    simp only [hok', Bool.false_eq_true, if_false]
    intro h
    simp [signalRetryImage, h]

theorem retrySignal_node (oracle : DecoderOracle) (rd : Rat)
    (request : HTTPRequest) (resp : HTTPResponse) (st : ProgressState) :
    isRecoverable (doReadNode oracle rd request resp (some st)).1.code = true →
      (doReadNode oracle rd request resp (some st)).2.map
          ProgressState.retryDelay = some (some rd) ∧
      (doReadNode oracle rd request resp (some st)).2.map
          ProgressState.canceled = some true := by
  by_cases hok : resp.isOK = true
  · unfold doReadNode
    simp only [hok, if_true]
    split
    · intro h
      simp [isRecoverable] at h
    · split
      · intro h
        simp [isRecoverable] at h
      · intro h
        simp [isRecoverable] at h
  · have hok' : resp.isOK = false := by simpa using hok
    unfold doReadNode
    simp only [hok', Bool.false_eq_true, if_false]
    intro h
    simp [signalRetry, h]

theorem retrySignal_object (oracle : DecoderOracle) (rd : Rat)
    (request : HTTPRequest) (resp : HTTPResponse) (st : ProgressState) :
    isRecoverable (doReadObject oracle rd request resp (some st)).1.code = true →
      (doReadObject oracle rd request resp (some st)).2.map
          ProgressState.retryDelay = some (some rd) ∧
      (doReadObject oracle rd request resp (some st)).2.map
          ProgressState.canceled = some true := by
  by_cases hok : resp.isOK = true
  · unfold doReadObject
    simp only [hok, if_true]
    split
    · intro h
      simp [isRecoverable] at h
    · split
      · intro h
        simp [isRecoverable] at h
      · intro h
        simp [isRecoverable] at h
  · have hok' : resp.isOK = false := by simpa using hok
    unfold doReadObject
    simp only [hok', Bool.false_eq_true, if_false]
    intro h
    simp [signalRetry, h]

theorem retrySignal_string (rd : Rat)
    (request : HTTPRequest) (resp : HTTPResponse) (st : ProgressState) :
    isRecoverable (doReadString rd request resp (some st)).1.code = true →
      (doReadString rd request resp (some st)).2.map
          ProgressState.retryDelay = some (some rd) ∧
      (doReadString rd request resp (some st)).2.map
          ProgressState.canceled = some true := by
  unfold doReadString
  split
  · intro h
    simp [isRecoverable] at h
  · intro h
    simp [signalRetry, h]

/-- C6: for each typed read, whenever the resulting error code is recoverable
(SERVER_ERROR, TIMEOUT or CANCELED) and the caller supplied a progress
callback, the read installs the client's configured retry delay on the
callback and cancels it before returning. -/
theorem C6_recoverable_retry_signal (oracle : DecoderOracle) (rd : Rat)
    (request : HTTPRequest) (resp : HTTPResponse) (st : ProgressState) :
    (isRecoverable (doReadImage oracle rd request resp (some st)).1.code = true →
      (doReadImage oracle rd request resp (some st)).2.map
          ProgressState.retryDelay = some (some rd) ∧
      (doReadImage oracle rd request resp (some st)).2.map
          ProgressState.canceled = some true) ∧
    (isRecoverable (doReadNode oracle rd request resp (some st)).1.code = true →
      (doReadNode oracle rd request resp (some st)).2.map
          ProgressState.retryDelay = some (some rd) ∧
      (doReadNode oracle rd request resp (some st)).2.map
          ProgressState.canceled = some true) ∧
    (isRecoverable (doReadObject oracle rd request resp (some st)).1.code = true →
      (doReadObject oracle rd request resp (some st)).2.map
          ProgressState.retryDelay = some (some rd) ∧
      (doReadObject oracle rd request resp (some st)).2.map
          ProgressState.canceled = some true) ∧
    (isRecoverable (doReadString rd request resp (some st)).1.code = true →
      (doReadString rd request resp (some st)).2.map
          ProgressState.retryDelay = some (some rd) ∧
      (doReadString rd request resp (some st)).2.map
          ProgressState.canceled = some true) :=
  ⟨retrySignal_image oracle rd request resp st,
   retrySignal_node oracle rd request resp st,
   retrySignal_object oracle rd request resp st,
   retrySignal_string rd request resp st⟩

theorem C6_recoverable_retry_signal_witness :
    isRecoverable (doReadImage ⟨true, true, []⟩ 2 (HTTPRequest.make "u".toList)
        (HTTPResponse.ofCode 500) (some ⟨none, false, []⟩)).1.code = true ∧
      (doReadImage ⟨true, true, []⟩ 2 (HTTPRequest.make "u".toList)
          (HTTPResponse.ofCode 500) (some ⟨none, false, []⟩)).2.map
        ProgressState.retryDelay = some (some 2) ∧
      (doReadString 2 (HTTPRequest.make "u".toList)
          (HTTPResponse.ofCode 500) (some ⟨none, false, []⟩)).2.map
        ProgressState.canceled = some true :=
  ⟨by decide,
    ((C6_recoverable_retry_signal ⟨true, true, []⟩ 2 (HTTPRequest.make "u".toList)
      (HTTPResponse.ofCode 500) ⟨none, false, []⟩).1 (by decide)).1,
    ((C6_recoverable_retry_signal ⟨true, true, []⟩ 2 (HTTPRequest.make "u".toList)
      (HTTPResponse.ofCode 500) ⟨none, false, []⟩).2.2.2 (by decide)).2⟩

/-! ## Multipart decoding (`decodeMultipartStream`, HTTPClient.cpp lines
127-215) -/

/-- Embeds `std::getline` on the part stream: the characters before the first
newline, and the remainder after consuming that newline (at end of stream the
whole rest is the line). -/
def getLine : Str → Str × Str
  | [] => ([], [])
  | c :: rest =>
      if c = '\n' then ([], rest)
      else ((getLine rest).1.cons c, (getLine rest).2)

theorem getLine_rest_lt (s : Str) (h : s ≠ []) : (getLine s).2.length < s.length := by
  induction s with
  | nil => exact absurd rfl h
  | cons c rest ih =>
      by_cases hc : c = '\n'
      · simp [getLine, hc]
      · simp only [getLine, if_neg hc]
        cases rest with
        | nil => simp [getLine]
        | cons d r2 =>
            have := ih (by simp)
            simpa [List.length_cons] using Nat.lt_succ_of_lt this

/-- Split a string at every colon. -/
def splitOnColon : Str → List Str
  | [] => [[]]
  | c :: rest =>
      if c = ':' then [] :: splitOnColon rest
      else
        match splitOnColon rest with
        | t :: ts => (c :: t) :: ts
        | [] => [[c]]

/-- Modelled from the spec: the `StringTokenizer` with delimiter `:` used on
header lines (StringUtils, not under src/); the spec describes sub-part
headers as `key:value` pairs, so tokens are the colon-separated pieces with
surrounding whitespace trimmed. -/
def tokenizeHeaderLine (line : Str) : List Str :=
  (splitOnColon line).map trim

/-- Embeds the header loop of `decodeMultipartStream` (lines 161-182): read
lines until a blank line, treating a bare `--` as end-of-stream (`done`), and
storing `tokens[0] -> tokens[1]` for every line with at least two tokens.
Returns the headers, the `done` flag and the rest of the stream.  The
recursion is fuelled so that it evaluates by kernel reduction; every
iteration consumes at least one input character, so the `input.length + 1`
fuel that `decodeHeaders` passes never runs out. -/
def decodeHeadersFuel : Nat → Str → List (Str × Str) →
    List (Str × Str) × Bool × Str
  | 0, input, acc => (acc, false, input)
  | fuel + 1, input, acc =>
      if (getLine input).1 = "--".toList then (acc, true, (getLine input).2)
      else
        have acc2 :=
          match tokenizeHeaderLine (getLine input).1 with
          | t0 :: t1 :: _ => upsert acc t0 t1
          | _ => acc
        if (getLine input).1.isEmpty then (acc2, false, (getLine input).2)
        else decodeHeadersFuel fuel (getLine input).2 acc2

def decodeHeaders (input : Str) (acc : List (Str × Str)) :
    List (Str × Str) × Bool × Str :=
  decodeHeadersFuel (input.length + 1) input acc

/-- Embeds the body scan of `decodeMultipartStream` (lines 185-209): consume
one byte at a time, advancing a pointer into the boundary string on a match
and flushing the partially matched prefix plus the byte into the part body
(growing `_size` by that many bytes) on a mismatch; stops when the whole
boundary has been matched.  Running out of input before the boundary is found
is a failure (`none`); the C++ loop would spin on the failed stream there. -/
def matchBody (bstr : Str) : Nat → Str → Nat → Str → Option (Str × Nat × Str)
  | bp, acc, sz, input =>
    if h : bp < bstr.length then
      match input with
      | [] => none
      | b :: rest =>
          if b = bstr.get ⟨bp, h⟩ then matchBody bstr (bp + 1) acc sz rest
          else matchBody bstr 0 (acc ++ bstr.take bp ++ [b]) (sz + bp + 1) rest
    else some (acc, sz, input)
termination_by structural _ _ _ input => input

/-- Embeds the outer part loop of `decodeMultipartStream` (lines 149-212):
finish the boundary line (a bare `--` ends the stream), read the sub-part
headers (which may also hit end-of-stream, dropping the unfinished part),
scan the body up to the next boundary and append the part.  The recursion is
fuelled; `decodeMultipartStream` supplies more fuel than there are input
bytes, so fuel can only run out if the stream is exhausted (where the C++
loop would not terminate). -/
def multipartLoop (boundary : Str) : Nat → Str → List Part → Option (List Part)
  | 0, _, _ => none
  | fuel + 1, input, acc =>
      if (getLine input).1 = "--".toList then some acc
      else
        match decodeHeaders (getLine input).2 [] with
        | (_, true, _) => some acc
        | (hdrs, false, r2) =>
            match matchBody ('-' :: '-' :: boundary) 0 [] 0 r2 with
            | none => none
            | some (body, sz, r3) =>
                multipartLoop boundary fuel r3 (acc ++ [Part.mk hdrs sz body])

/-- Embeds `decodeMultipartStream(boundary, input, output)` (lines 127-215):
checks that the stream opens with `--boundary` (protocol violation otherwise,
`none`), then decodes the boundary-separated parts. -/
def decodeMultipartStream (boundary : Str) (input : Str) : Option (List Part) :=
  if input.take ('-' :: '-' :: boundary).length = '-' :: '-' :: boundary then
    multipartLoop boundary (input.length + 1)
      (input.drop ('-' :: '-' :: boundary).length) []
  else none

/-! ## CURL transport (`CURLImplementation::doGet`, HTTPClient.cpp lines
524-888) -/

/-- The result classes of `curl_easy_perform` that the transport
distinguishes (lines 729, 785): success, the two cancel/timeout aborts, and
every other failure. -/
inductive CurlCode where
  | ok
  | abortedByCallback
  | operationTimedout
  | otherError
  deriving Repr, DecidableEq

/-- What one `curl_easy_perform` run reported: the result class, the
`curl_easy_strerror` text for it, whether reading `CURLINFO_HTTP_CONNECTCODE`
failed (with its own error text), the HTTP response code, content type, file
time, response headers, the downloaded body, and the transfer duration. -/
structure CurlOutcome where
  res : CurlCode
  strerror : Str
  proxyInfoFails : Bool
  proxyStrerror : Str
  responseCode : Nat
  contentType : Option Str
  filetime : Nat
  headers : List (Str × Str)
  body : Str
  duration : Rat
  deriving Repr, DecidableEq

/-- The ambient transport state: whether a proxy address was configured, the
simulated response code (`s_simResponseCode` when positive), and whether the
per-request clock-tick hash drew 0 mod 10 (the 1-in-10 injection). -/
structure TransportEnv where
  proxyConfigured : Bool
  simResponseCode : Option Nat
  simHashIsZero : Bool
  deriving Repr, DecidableEq

/-- Embeds the response-code simulation (lines 761-766): when a simulated
code is set and the tick hash is 0 mod 10, it replaces the real code. -/
def effectiveCode (env : TransportEnv) (oc : CurlOutcome) : Nat :=
  match env.simResponseCode with
  | some c => if env.simHashIsZero then c else oc.responseCode
  | none => oc.responseCode

/-- Embeds the multipart detection (lines 788-789): MIME type longer than 9
characters and starting with `multipart`. -/
def isMultipartMime (mime : Str) : Bool :=
  decide (mime.length > 9) && "multipart".toList.isPrefixOf mime

/-- Embeds the part assembly (lines 785-820): on `CURLE_OK`, either decode a
multipart stream — with the boundary hard-coded to `wcs` (line 794) — or
build a single part carrying the trimmed response headers and the body; on
any other result no part is attached. -/
def curlParts (oc : CurlOutcome) (mime : Str) : List Part :=
  if oc.res == CurlCode.ok then
    if isMultipartMime mime then
      (decodeMultipartStream "wcs".toList oc.body).getD []
    else
      [⟨oc.headers.foldl (fun m h => upsert m (trim h.1) (trim h.2)) [], 0, oc.body⟩]
  else []

/-- Embeds `CURLImplementation::doGet` (lines 524-888) from the point where
`curl_easy_perform` has returned: a callback abort or timeout yields a
canceled code-0 response carrying the backend error string; a failed proxy
connect-code query yields a code-0 response with a `Proxy connect error`
message; otherwise the response carries the (possibly simulated) code, MIME
type, file time, duration and parts, with the error string as message when
the transfer failed. -/
def curlDoGet (env : TransportEnv) (oc : CurlOutcome) : HTTPResponse :=
  if oc.res == CurlCode.abortedByCallback || oc.res == CurlCode.operationTimedout then
    { HTTPResponse.ofCode 0 with canceled := true, message := oc.strerror }
  else if env.proxyConfigured && oc.proxyInfoFails then
    { HTTPResponse.ofCode 0 with
        message := "Proxy connect error   ".toList ++ oc.proxyStrerror }
  else
    { code := effectiveCode env oc
      parts := curlParts oc (oc.contentType.getD [])
      mimeType := oc.contentType.getD []
      message := if oc.res == CurlCode.ok then [] else oc.strerror
      canceled := false
      duration := oc.duration
      lastModified := oc.filetime
      fromCache := false }

theorem ofCode_code (c : Nat) : (HTTPResponse.ofCode c).code = c := rfl

/-- C7: the transport returns either a code-0 response that is canceled or
carries a message, or a response whose code lies in 100..599 (given that curl
reports error strings for failures, reports 0 or a real HTTP status as the
response code, and any injected simulation code is a real HTTP status); and
on codes up to 599 the code categories are exactly the claimed ranges:
unknown below 100, then one category per hundred up to the server errors at
500-599. -/
theorem C7_transport_code_range (env : TransportEnv) (oc : CurlOutcome)
    (herr : oc.strerror ≠ [])
    (hok : oc.res = CurlCode.ok → 100 ≤ oc.responseCode ∧ oc.responseCode ≤ 599)
    (hcode : oc.responseCode = 0 ∨ (100 ≤ oc.responseCode ∧ oc.responseCode ≤ 599))
    (hsim : ∀ c, env.simResponseCode = some c → 100 ≤ c ∧ c ≤ 599) :
    (((curlDoGet env oc).code = 0 ∧
        ((curlDoGet env oc).canceled = true ∨ (curlDoGet env oc).message ≠ [])) ∨
      (100 ≤ (curlDoGet env oc).code ∧ (curlDoGet env oc).code ≤ 599)) ∧
    (∀ n : Nat, n ≤ 599 →
      ((HTTPResponse.ofCode n).getCodeCategory = CATEGORY_UNKNOWN ↔ n < 100) ∧
      ((HTTPResponse.ofCode n).getCodeCategory = CATEGORY_INFORMATIONAL ↔
        100 ≤ n ∧ n ≤ 199) ∧
      ((HTTPResponse.ofCode n).getCodeCategory = CATEGORY_SUCCESS ↔
        200 ≤ n ∧ n ≤ 299) ∧
      ((HTTPResponse.ofCode n).getCodeCategory = CATEGORY_REDIRECTION ↔
        300 ≤ n ∧ n ≤ 399) ∧
      ((HTTPResponse.ofCode n).getCodeCategory = CATEGORY_CLIENT_ERROR ↔
        400 ≤ n ∧ n ≤ 499) ∧
      ((HTTPResponse.ofCode n).getCodeCategory = CATEGORY_SERVER_ERROR ↔
        500 ≤ n ∧ n ≤ 599)) := by
  constructor
  · unfold curlDoGet
    split
    · exact Or.inl ⟨rfl, Or.inl rfl⟩
    · split
      · refine Or.inl ⟨rfl, Or.inr ?_⟩
        simp
      · rename_i hab _
        unfold effectiveCode
        cases hs : env.simResponseCode with
        | some c =>
            by_cases hz : env.simHashIsZero = true
            · simp only [hs, hz, if_true]
              exact Or.inr (hsim c hs)
            · have hz' : env.simHashIsZero = false := by simpa using hz
              simp only [hs, hz', Bool.false_eq_true, if_false]
              cases hcode with
              | inl h0 =>
                  refine Or.inl ⟨h0, Or.inr ?_⟩
                  have hres : oc.res ≠ CurlCode.ok := by
                    intro he
                    have := (hok he).1
                    omega
                  simp [hres, herr]
              | inr hr => exact Or.inr hr
        | none =>
            simp only [hs]
            cases hcode with
            | inl h0 =>
                refine Or.inl ⟨h0, Or.inr ?_⟩
                have hres : oc.res ≠ CurlCode.ok := by
                  intro he
                  have := (hok he).1
                  omega
                simp [hres, herr]
            | inr hr => exact Or.inr hr
  · intro n hn
    have hladder : (HTTPResponse.ofCode n).getCodeCategory =
        (if n < 100 then CATEGORY_UNKNOWN
         else if n < 200 then CATEGORY_INFORMATIONAL
         else if n < 300 then CATEGORY_SUCCESS
         else if n < 400 then CATEGORY_REDIRECTION
         else if n < 500 then CATEGORY_CLIENT_ERROR
         else CATEGORY_SERVER_ERROR) := rfl
    rw [hladder]
    unfold CATEGORY_UNKNOWN CATEGORY_INFORMATIONAL CATEGORY_SUCCESS
      CATEGORY_REDIRECTION CATEGORY_CLIENT_ERROR CATEGORY_SERVER_ERROR
    by_cases h1 : n < 100
    · rw [if_pos h1]
      refine ⟨?_, ?_, ?_, ?_, ?_, ?_⟩ <;> constructor <;> intro h <;> omega
    · by_cases h2 : n < 200
      · rw [if_neg h1, if_pos h2]
        refine ⟨?_, ?_, ?_, ?_, ?_, ?_⟩ <;> constructor <;> intro h <;> omega
      · by_cases h3 : n < 300
        · rw [if_neg h1, if_neg h2, if_pos h3]
          refine ⟨?_, ?_, ?_, ?_, ?_, ?_⟩ <;> constructor <;> intro h <;> omega
        · by_cases h4 : n < 400
          · rw [if_neg h1, if_neg h2, if_neg h3, if_pos h4]
            refine ⟨?_, ?_, ?_, ?_, ?_, ?_⟩ <;> constructor <;> intro h <;> omega
          · by_cases h5 : n < 500
            · rw [if_neg h1, if_neg h2, if_neg h3, if_neg h4, if_pos h5]
              refine ⟨?_, ?_, ?_, ?_, ?_, ?_⟩ <;> constructor <;> intro h <;> omega
            · rw [if_neg h1, if_neg h2, if_neg h3, if_neg h4, if_neg h5]
              refine ⟨?_, ?_, ?_, ?_, ?_, ?_⟩ <;> constructor <;> intro h <;> omega

theorem C7_transport_code_range_witness :
    (("e".toList : Str) ≠ []) ∧
      (((curlDoGet ⟨false, none, false⟩
            ⟨CurlCode.ok, "e".toList, false, [], 200, none, 0, [], [], 0⟩).code = 0 ∧
          ((curlDoGet ⟨false, none, false⟩
              ⟨CurlCode.ok, "e".toList, false, [], 200, none, 0, [], [], 0⟩).canceled = true ∨
            (curlDoGet ⟨false, none, false⟩
              ⟨CurlCode.ok, "e".toList, false, [], 200, none, 0, [], [], 0⟩).message ≠ [])) ∨
        (100 ≤ (curlDoGet ⟨false, none, false⟩
            ⟨CurlCode.ok, "e".toList, false, [], 200, none, 0, [], [], 0⟩).code ∧
          (curlDoGet ⟨false, none, false⟩
            ⟨CurlCode.ok, "e".toList, false, [], 200, none, 0, [], [], 0⟩).code ≤ 599)) :=
  ⟨by decide,
    (C7_transport_code_range ⟨false, none, false⟩
      ⟨CurlCode.ok, "e".toList, false, [], 200, none, 0, [], [], 0⟩
      (by decide) (fun _ => by decide) (Or.inr (by decide))
      (fun c hc => by simp at hc)).1⟩

/-! ## C8: multipart decoding of the concrete WCS payload -/

/-- The §8 scenario-4 payload, with `ABCDEFGH` as the 8 bytes. -/
def wcsPayload : Str :=
  ("--wcs\nContent-Type: image/tiff\n\nABCDEFGH\n" ++
    "--wcs\nContent-Type: text/plain\n\nhello\n--wcs--").toList

/-- C8, counterexample: on the claimed payload the decoder does produce two
parts, but part 0's body is 9 bytes (the 8 payload bytes plus the newline
that precedes the boundary), not 8. -/
theorem C8_counterexample :
    (decodeMultipartStream "wcs".toList wcsPayload).map
        (fun ps => ps.map Part.size) = some [9, 6] ∧ (9 : Nat) ≠ 8 := by
  constructor
  · decide
  · decide

/-- C8 (amended): a response whose MIME type is longer than 9 characters and
begins with `multipart` is split on the fixed boundary `wcs` — the boundary
named in the MIME type is ignored (line 794's hard-coded `"wcs"`).  On the
§8 scenario payload this produces exactly two parts: part 0 with header
`Content-Type: image/tiff` and the 9-byte body `ABCDEFGH\n` (the newline
before the boundary is kept), and part 1 with `Content-Type: text/plain` and
the 6-byte body `hello\n`. -/
theorem C8_multipart_decode (env : TransportEnv) (oc : CurlOutcome)
    (hres : oc.res = CurlCode.ok)
    (hmime : isMultipartMime (oc.contentType.getD []) = true)
    (hnoproxy : (env.proxyConfigured && oc.proxyInfoFails) = false) :
    (curlDoGet env oc).parts =
        (decodeMultipartStream "wcs".toList oc.body).getD [] ∧
      decodeMultipartStream "wcs".toList wcsPayload =
        some [Part.mk [("Content-Type".toList, "image/tiff".toList)] 9
            "ABCDEFGH\n".toList,
          Part.mk [("Content-Type".toList, "text/plain".toList)] 6
            "hello\n".toList] := by
  constructor
  · have hb : (oc.res == CurlCode.abortedByCallback ||
        oc.res == CurlCode.operationTimedout) = false := by
      rw [hres]
      rfl
    unfold curlDoGet
    rw [hb, hnoproxy]
    simp only [Bool.false_eq_true, if_false]
    unfold curlParts
    rw [hres, hmime]
    rfl
  · decide

theorem C8_multipart_decode_witness :
    ((⟨CurlCode.ok, "e".toList, false, [], 200,
          some "multipart/related; boundary=zzz".toList, 0, [], wcsPayload, 0⟩ :
        CurlOutcome).res = CurlCode.ok) ∧
      isMultipartMime ((some "multipart/related; boundary=zzz".toList).getD []) = true ∧
      (curlDoGet ⟨false, none, false⟩
          ⟨CurlCode.ok, "e".toList, false, [], 200,
            some "multipart/related; boundary=zzz".toList, 0, [], wcsPayload, 0⟩).parts =
        (decodeMultipartStream "wcs".toList wcsPayload).getD [] :=
  ⟨rfl, by decide,
    (C8_multipart_decode ⟨false, none, false⟩
      ⟨CurlCode.ok, "e".toList, false, [], 200,
        some "multipart/related; boundary=zzz".toList, 0, [], wcsPayload, 0⟩
      rfl (by decide) (by decide)).1⟩

end OsgEarth
